import Mathlib

/-!
Verification of the SQLDumpNavi dump indexing and replay engine.

The Python sources `src/dump-analiza.py` and `src/DeepSeekDump.py` both define
a class `SQLDumpAnalyzer` whose `analyze` method performs one forward pass over
the lines of a dump file, maintaining a `current_table` variable, a dict
`tables` mapping table names to per-table records, and the byte position of the
stream.  The pass recognizes four line shapes, in this order for each line:

  1. `re.match(r'CREATE TABLE `?(?P<table_name>\w+)`?', line, re.IGNORECASE)`
  2. when `current_table` is set:
     `re.match(r'\s*`?(?P<column_name>\w+)`?', line)`   (column candidate)
  3. when `current_table` is set: `re.match(r'\);', line)` (schema close)
  4. `re.match(r'INSERT INTO `?(?P<table_name>\w+)`?', line, re.IGNORECASE)`
  5. otherwise, when `current_table` is set and it has at least one recorded
     insert position, the end of the most recent insert position is moved to
     the offset just after the current line.

Each branch ends with `continue`, so at most one branch fires per line.

The embedding below models lines as `List Char` (a dump is the list of its
lines without their newline terminators), and the stream position in the way
the code uses `file.tell()`: the offset before a line plus the raw length of
the line plus one for its newline.  `rstrip` models Python's `str.rstrip`
restricted to ASCII whitespace, and `\w` is modeled as ASCII alphanumerics
plus underscore; every dump appearing in the repository is ASCII.

`step` is the body of the `for` loop of `dump-analiza.py`, whose loop reads
with `file.readline()` and may therefore call `file.tell()` freely.

`DeepSeekDump.py` is different: its `analyze` iterates `for line in
tqdm(file, ...)` and calls `file.tell()` as the first statement of the loop
body.  In CPython, `tell()` on a text-mode stream is disabled while the
stream is being iterated (`OSError: telling position disabled by next()
call`, an alias of `IOError`), so the first iteration raises before any
mutation of `self.tables`; the `except IOError` wrapping the whole method
swallows the error and `analyze` returns normally with the empty dict built
by `__init__`.  `deepAnalyze` models exactly that behavior.
-/

namespace SQLDumpNavi

/-- ASCII part of Python's `\s` (the whitespace class used by `str.rstrip`
and by the column pattern). -/
def isSpaceChar (c : Char) : Bool :=
  c == ' ' || c == '\t' || c == '\n' || c == '\r' ||
  c == Char.ofNat 11 || c == Char.ofNat 12

/-- Python's `\w` on ASCII input: letters, digits and underscore. -/
def isWordChar (c : Char) : Bool :=
  c.isAlphanum || c == '_'

/-- `str.rstrip()` on a line. -/
def rstrip (l : List Char) : List Char :=
  (l.reverse.dropWhile isSpaceChar).reverse

/-- Case-insensitive literal prefix match: consume `kw` from the front of the
line (comparing lowercased characters, as `re.IGNORECASE` does on a literal
pattern) and return the rest, or `none` when the literal does not match. -/
def dropPrefixCI : List Char → List Char → Option (List Char)
  | [], l => some l
  | _ :: _, [] => none
  | k :: ks, c :: cs => if k.toLower = c.toLower then dropPrefixCI ks cs else none

/-- The optional opening backtick of `` `? `` in the identifier patterns. -/
def dropTick : List Char → List Char
  | '`' :: r => r
  | r => r

/-- The maximal `\w*` run at the front of the line. -/
def takeWord (l : List Char) : List Char :=
  l.takeWhile isWordChar

/-- `` `?(\w+)`? `` : optional backtick, then a non-empty word, whose maximal
run is the captured identifier.  (The trailing `` `? `` never affects the
capture.)  Since a backtick is neither a word character nor whitespace, the
regex engine's backtracking cannot produce any other capture. -/
def matchIdent (l : List Char) : Option (List Char) :=
  let w := takeWord (dropTick l)
  if w.isEmpty then none else some w

/-- `re.match` of a case-insensitive keyword literal followed by
`` `?(\w+)`? ``, returning the captured table name. -/
def matchOpen (kw : List Char) (l : List Char) : Option (List Char) :=
  (dropPrefixCI kw l).bind matchIdent

/-- The literal of the schema-open pattern, `CREATE TABLE ` (with its
trailing space). -/
def createKw : List Char := "CREATE TABLE ".data

/-- The literal of the insert-open pattern, `INSERT INTO ` (with its
trailing space). -/
def insertKw : List Char := "INSERT INTO ".data

/-- `re.match(r'\s*`?(?P<column_name>\w+)`?', line)`: leading whitespace,
optional backtick, captured word.  Maximal munch is exact here because the
whitespace class is disjoint from backtick and from word characters. -/
def matchColumn (l : List Char) : Option (List Char) :=
  matchIdent (l.dropWhile isSpaceChar)

/-- `re.match(r'\);', line)`: the line begins with `);`. -/
def matchClose : List Char → Bool
  | ')' :: ';' :: _ => true
  | _ => false

/-- The per-table record built by `analyze` (the dict literal created in the
`CREATE TABLE` and `INSERT INTO` branches). -/
structure TableInfo where
  columns : List (List Char)
  rows : List (List Char)
  insert_count : Nat
  estimated_size : Nat
  create_table_start : Option Nat
  create_table_end : Option Nat
  insert_positions : List (Nat × Option Nat)
deriving DecidableEq

/-- The fresh record installed by the schema-open branch (`start` set) and by
the insert branch's `setdefault` (`start` absent).  `rows` models the `data`
key of the Python dict, which no code path ever appends to. -/
def freshInfo (start : Option Nat) : TableInfo :=
  ⟨[], [], 0, 0, start, none, []⟩

/-- `self.tables`, an insertion-ordered map from table name to record. -/
abbrev Tables := List (List Char × TableInfo)

/-- Dict lookup. -/
def lookupT : Tables → List Char → Option TableInfo
  | [], _ => none
  | (k, v) :: m, key => if k = key then some v else lookupT m key

/-- Dict assignment `self.tables[name] = value`: replaces in place when the
key exists (Python dicts keep the original insertion position), appends
otherwise. -/
def setT : Tables → List Char → TableInfo → Tables
  | [], key, v => [(key, v)]
  | (k, w) :: m, key, v => if k = key then (k, v) :: m else (k, w) :: setT m key v

/-- In-place update of the record at `key`; identity when the key is absent
(every Python call site has the key present). -/
def updateT : Tables → List Char → (TableInfo → TableInfo) → Tables
  | [], _, _ => []
  | (k, w) :: m, key, f => if k = key then (k, f w) :: m else (k, w) :: updateT m key f

/-- `self.tables.setdefault(name, value)`. -/
def setdefaultT (m : Tables) (key : List Char) (v : TableInfo) : Tables :=
  if (lookupT m key).isSome then m else m ++ [(key, v)]

/-- Replace the end of the most recent insert position
(`insert_positions[-1] = (insert_positions[-1][0], file.tell())`). -/
def closeLastPos : List (Nat × Option Nat) → Nat → List (Nat × Option Nat)
  | [], _ => []
  | [p], e => [(p.1, some e)]
  | p :: q :: ps, e => p :: closeLastPos (q :: ps) e

/-- The loop state of `analyze`: the tables dict, `current_table`, and the
stream position (`file.tell()` before the next line). -/
structure AState where
  tables : Tables
  current : Option (List Char)
  pos : Nat
deriving DecidableEq

/-- Fall-through clause 5: extend the most recent insert position of the
current table to the offset just after this line. -/
def stepLast (s : AState) (posAfter : Nat) : AState :=
  match s.current with
  | some t =>
    match lookupT s.tables t with
    | some info =>
      if info.insert_positions.isEmpty then { s with pos := posAfter }
      else
        { s with
          tables := updateT s.tables t
            (fun i => { i with insert_positions := closeLastPos i.insert_positions posAfter }),
          pos := posAfter }
    | none => { s with pos := posAfter }
  | none => { s with pos := posAfter }

/-- Clause 4 of `dump-analiza.py`: the `INSERT INTO` branch, with its
`setdefault`, the appended open position and the count increment. -/
def stepIns (s : AState) (line : List Char) (posBefore posAfter : Nat) : AState :=
  match matchOpen insertKw line with
  | some name =>
    let t1 := setdefaultT s.tables name (freshInfo none)
    { tables := updateT t1 name
        (fun i => { i with
          insert_positions := i.insert_positions ++ [(posBefore, none)],
          insert_count := i.insert_count + 1 }),
      current := some name, pos := posAfter }
  | none => stepLast s posAfter

/-- Clause 3 of `dump-analiza.py`: the schema-close branch, which stores
`file.tell()`, the offset just after the close line. -/
def stepTail (s : AState) (line : List Char) (posBefore posAfter : Nat) : AState :=
  match s.current with
  | some t =>
    if matchClose line then
      { s with
        tables := updateT s.tables t (fun i => { i with create_table_end := some posAfter }),
        pos := posAfter }
    else stepIns s line posBefore posAfter
  | none => stepIns s line posBefore posAfter

/-- One iteration of the `analyze` loop of `dump-analiza.py` on the raw line
`raw` (clause 1, then clause 2, then the rest). -/
def step (s : AState) (raw : List Char) : AState :=
  let posBefore := s.pos
  let posAfter := s.pos + raw.length + 1
  let line := rstrip raw
  match matchOpen createKw line with
  | some name =>
    { tables := setT s.tables name (freshInfo (some posBefore)),
      current := some name, pos := posAfter }
  | none =>
    match s.current with
    | some t =>
      match matchColumn line with
      | some col =>
        { s with
          tables := updateT s.tables t (fun i => { i with columns := i.columns ++ [col] }),
          pos := posAfter }
      | none => stepTail s line posBefore posAfter
    | none => stepTail s line posBefore posAfter

/-- The initial loop state: empty dict, no current table, offset `0`. -/
def initState : AState := ⟨[], none, 0⟩

/-- The whole pass of `dump-analiza.py` from a given state. -/
def runLines (s : AState) (lines : List (List Char)) : AState :=
  lines.foldl step s

/-- `SQLDumpAnalyzer.analyze` of `dump-analiza.py` on a dump given as its
list of lines. -/
def analyze (dump : List String) : Tables :=
  (runLines initState (dump.map String.data)).tables

/-- `SQLDumpAnalyzer.analyze` of `DeepSeekDump.py`.  The first statement of
its loop body, `pos_before_line = file.tell()`, raises `OSError` on the
first line of every dump because `tell()` is disabled while the text stream
is being iterated by `for line in tqdm(file, ...)`; the surrounding
`except IOError` swallows it, so the method returns with the dict from
`__init__` untouched.  On a dump with no lines at all the loop body never
runs and the dict is likewise empty.  Hence the pass produces an empty
index on every dump. -/
def deepAnalyze (_dump : List String) : Tables := []

/-! ### Statistics (`get_table_stats`)

Both implementations build one row `[name, insert_count, size-string]` per
dict entry, in dict order, and call `stats.sort(key=lambda x: x[1])`.
Python's `list.sort` is a stable ascending sort; any two stable sorts by the
same key agree extensionally, so the model uses insertion sort by the
`insert_count` component. -/

/-- The row built for one dict entry: name, `insert_count`, and the
`estimated_size` from which the displayed size string is formatted. -/
def statsRow (p : List Char × TableInfo) : List Char × Nat × Nat :=
  (p.1, p.2.insert_count, p.2.estimated_size)

/-- The sort key comparison used by `stats.sort(key=lambda x: x[1])`. -/
def statsLe (a b : List Char × Nat × Nat) : Prop :=
  a.2.1 ≤ b.2.1

instance : DecidableRel statsLe :=
  fun a b => inferInstanceAs (Decidable (a.2.1 ≤ b.2.1))

instance : IsTotal (List Char × Nat × Nat) statsLe :=
  ⟨fun a b => Nat.le_total a.2.1 b.2.1⟩

instance : IsTrans (List Char × Nat × Nat) statsLe :=
  ⟨fun _ _ _ h1 h2 => Nat.le_trans h1 h2⟩

/-- `SQLDumpAnalyzer.get_table_stats`. -/
def get_table_stats (m : Tables) : List (List Char × Nat × Nat) :=
  List.insertionSort statsLe (m.map statsRow)

/-! ### Data replay (`import_data`)

`import_data` of `dump-analiza.py` iterates `insert_positions` and runs
`file.seek(start); file.read(end - start); connection.execute(...)` with no
per-statement handler; the only `try` wraps the whole loop, so the first
exception (a failing `execute`, or the `TypeError` from `end - start` when
`end` is `None`) aborts the remaining iterations.  `DeepSeekDump.py` wraps
only `connection.execute` in an inner `try` that prints a warning and
continues, so an `execute` failure skips to the next range, while a `None`
end still aborts (the subtraction happens outside the inner `try`).  Neither
version accumulates or reports a count of failures.

The models below return the list of ranges actually submitted to
`connection.execute`, given the success/failure behavior of `execute` as a
boolean function of the range. -/

/-- Ranges submitted by `import_data` of `dump-analiza.py`: a failing
`execute` (or an unclosed range) stops the loop. -/
def import_data_submitted (exec : Nat → Nat → Bool) :
    List (Nat × Option Nat) → List (Nat × Option Nat)
  | [] => []
  | (_, none) :: _ => []
  | (a, some e) :: rs =>
    if exec a e then (a, some e) :: import_data_submitted exec rs
    else [(a, some e)]

/-- Ranges submitted by `import_data` of `DeepSeekDump.py`: an `execute`
failure is logged and skipped, an unclosed range still aborts the loop. -/
def deep_import_submitted (exec : Nat → Nat → Bool) :
    List (Nat × Option Nat) → List (Nat × Option Nat)
  | [] => []
  | (_, none) :: _ => []
  | (a, some e) :: rs => (a, some e) :: deep_import_submitted exec rs

/-- An `execute` that fails exactly on the range starting at offset `0`. -/
def execFail0 : Nat → Nat → Bool := fun a _ => a != 0

/-! ### Concrete dumps used to evaluate the code -/

/-- A schema block followed by a line matching both the insert-open and the
column patterns. -/
def dumpC1 : List String :=
  ["CREATE TABLE `a` (", "INSERT INTO `t` VALUES (64,1);"]

/-- An insert-open line followed by an unrecognized free-form line. -/
def dumpC3 : List String :=
  ["INSERT INTO `t` VALUES (1);", "garbage_line x"]

/-- A schema-open for `x` followed by an insert naming the never-defined
table `orphan`. -/
def dumpC4 : List String :=
  ["CREATE TABLE `x` (", "INSERT INTO `orphan` VALUES (1);"]

/-- A dump whose first structural line is an insert for an unseen table. -/
def dumpC4b : List String :=
  ["INSERT INTO `orphan` VALUES (1);"]

/-- A minimal schema block: open line, then the close line `);`. -/
def dumpC6 : List String :=
  ["CREATE TABLE `t` (", ");"]

/-- One insert followed by a blank line that closes its range. -/
def dumpC7 : List String :=
  ["INSERT INTO `t` VALUES (1);", ""]

/-- Two tables with different insert counts (`t`: 1, `u`: 0). -/
def dumpC9 : List String :=
  ["INSERT INTO `t` VALUES (1);", "CREATE TABLE `u` ("]

/-- The sample dump written by `test_sql_dump_analyzer` in
`src/test_dump-analiza.py` (Scenario A of the spec): one schema block for
`test_table` with columns `id_carrier`, `id_zone`, then 21 single-line
insert statements, surrounded by comment, lock/unlock and alter lines. -/
def scenarioA : List String :=
  [ ""
  , "/*!40000 ALTER TABLE `test_table` ENABLE KEYS */;"
  , "UNLOCK TABLES;"
  , "DROP TABLE IF EXISTS `test_table`;"
  , "/*!40101 SET @saved_cs_client     = @@character_set_client */;"
  , "/*!50503 SET character_set_client = utf8mb4 */;"
  , "CREATE TABLE `test_table` ("
  , "  `id_carrier` int unsigned NOT NULL,"
  , "  `id_zone` int unsigned NOT NULL,"
  , "  PRIMARY KEY (`id_carrier`,`id_zone`)"
  , ") ENGINE=InnoDB DEFAULT CHARSET=utf8mb3;"
  , "/*!40101 SET character_set_client = @saved_cs_client */;"
  , ""
  , "LOCK TABLES `test_table` WRITE;"
  , "/*!40000 ALTER TABLE `test_table` DISABLE KEYS */;"
  , "INSERT INTO `test_table` (`id_carrier`, `id_zone`) VALUES (64,1);"
  , "INSERT INTO `test_table` (`id_carrier`, `id_zone`) VALUES (65,1);"
  , "INSERT INTO `test_table` (`id_carrier`, `id_zone`) VALUES (66,1);"
  , "INSERT INTO `test_table` (`id_carrier`, `id_zone`) VALUES (67,1);"
  , "INSERT INTO `test_table` (`id_carrier`, `id_zone`) VALUES (68,1);"
  , "INSERT INTO `test_table` (`id_carrier`, `id_zone`) VALUES (69,1);"
  , "INSERT INTO `test_table` (`id_carrier`, `id_zone`) VALUES (70,1);"
  , "INSERT INTO `test_table` (`id_carrier`, `id_zone`) VALUES (71,1);"
  , "INSERT INTO `test_table` (`id_carrier`, `id_zone`) VALUES (72,1);"
  , "INSERT INTO `test_table` (`id_carrier`, `id_zone`) VALUES (73,1);"
  , "INSERT INTO `test_table` (`id_carrier`, `id_zone`) VALUES (74,1);"
  , "INSERT INTO `test_table` (`id_carrier`, `id_zone`) VALUES (75,1);"
  , "INSERT INTO `test_table` (`id_carrier`, `id_zone`) VALUES (76,1);"
  , "INSERT INTO `test_table` (`id_carrier`, `id_zone`) VALUES (77,1);"
  , "INSERT INTO `test_table` (`id_carrier`, `id_zone`) VALUES (78,1);"
  , "INSERT INTO `test_table` (`id_carrier`, `id_zone`) VALUES (79,1);"
  , "INSERT INTO `test_table` (`id_carrier`, `id_zone`) VALUES (80,1);"
  , "INSERT INTO `test_table` (`id_carrier`, `id_zone`) VALUES (81,1);"
  , "INSERT INTO `test_table` (`id_carrier`, `id_zone`) VALUES (82,1);"
  , "INSERT INTO `test_table` (`id_carrier`, `id_zone`) VALUES (83,1);"
  , "INSERT INTO `test_table` (`id_carrier`, `id_zone`) VALUES (84,1);"
  , "/*!40000 ALTER TABLE `test_table` ENABLE KEYS */;"
  , ""
  , "    " ]

/-- The record the pass produces for `t` on `dumpC7`. -/
def infoT7 : TableInfo := ⟨[], [], 1, 0, none, none, [(0, some 29)]⟩

/-- The record the pass produces for `t` on `dumpC9`. -/
def infoT9 : TableInfo := ⟨[], [], 1, 0, none, none, [(0, none)]⟩

/-- A record with a given insert count, as used by the statistics example. -/
def exInfo (n : Nat) : TableInfo := ⟨[], [], n, 0, none, none, []⟩

/-- A dict with insert counts `a: 5`, `b: 2`, `c: 9` (Scenario D). -/
def statsExample : Tables :=
  [("a".data, exInfo 5), ("b".data, exInfo 2), ("c".data, exInfo 9)]

/-- A state with table `t` current, positioned at offset 19, about to read a
schema-close line. -/
def sC6 : AState := ⟨[("t".data, freshInfo (some 0))], some ("t".data), 19⟩

/-- A raw schema-close line. -/
def rawC6 : List Char := ");".data

/-- Every record of the dict satisfies `P`. -/
def invTab (P : TableInfo → Prop) (m : Tables) : Prop :=
  ∀ p ∈ m, P p.2

/-! ## Lemmas about the dict operations -/

theorem invTab_lookupT {P : TableInfo → Prop} {m : Tables} {k : List Char} {i : TableInfo}
    (h : invTab P m) (hl : lookupT m k = some i) : P i := by
  induction m with
  | nil => simp [lookupT] at hl
  | cons p m ih =>
    obtain ⟨a, b⟩ := p
    by_cases hk : a = k
    · simp [lookupT, hk] at hl
      exact hl ▸ h _ (List.mem_cons_self _ _)
    · simp [lookupT, hk] at hl
      exact ih (fun q hq => h q (List.mem_cons_of_mem _ hq)) hl

theorem invTab_setT {P : TableInfo → Prop} {m : Tables} {k : List Char} {v : TableInfo}
    (h : invTab P m) (hv : P v) : invTab P (setT m k v) := by
  induction m with
  | nil => intro p hp; simp [setT] at hp; simp [hp, hv]
  | cons q m ih =>
    obtain ⟨a, b⟩ := q
    intro p hp
    by_cases hk : a = k
    · simp [setT, hk] at hp
      rcases hp with hp | hp
      · simp [hp, hv]
      · exact h _ (List.mem_cons_of_mem _ hp)
    · simp [setT, hk] at hp
      rcases hp with hp | hp
      · exact hp ▸ h _ (List.mem_cons_self _ _)
      · exact ih (fun q hq => h q (List.mem_cons_of_mem _ hq)) _ hp

theorem invTab_updateT {P : TableInfo → Prop} {m : Tables} {k : List Char}
    {f : TableInfo → TableInfo}
    (h : invTab P m) (hf : ∀ i, P i → P (f i)) : invTab P (updateT m k f) := by
  induction m with
  | nil => intro p hp; simp [updateT] at hp
  | cons q m ih =>
    obtain ⟨a, b⟩ := q
    intro p hp
    by_cases hk : a = k
    · simp [updateT, hk] at hp
      rcases hp with hp | hp
      · subst hp; exact hf _ (h _ (List.mem_cons_self _ _))
      · exact h _ (List.mem_cons_of_mem _ hp)
    · simp [updateT, hk] at hp
      rcases hp with hp | hp
      · exact hp ▸ h _ (List.mem_cons_self _ _)
      · exact ih (fun q hq => h q (List.mem_cons_of_mem _ hq)) _ hp

theorem invTab_setdefaultT {P : TableInfo → Prop} {m : Tables} {k : List Char} {v : TableInfo}
    (h : invTab P m) (hv : P v) : invTab P (setdefaultT m k v) := by
  unfold setdefaultT
  split
  · exact h
  · intro p hp
    rcases List.mem_append.1 hp with hp | hp
    · exact h _ hp
    · simp at hp; simp [hp, hv]

theorem closeLastPos_length (ps : List (Nat × Option Nat)) (e : Nat) :
    (closeLastPos ps e).length = ps.length := by
  induction ps with
  | nil => rfl
  | cons p ps ih =>
    cases ps with
    | nil => rfl
    | cons q ps2 => simpa [closeLastPos] using ih

theorem lookupT_updateT_self (m : Tables) (k : List Char) (f : TableInfo → TableInfo) :
    lookupT (updateT m k f) k = (lookupT m k).map f := by
  induction m with
  | nil => rfl
  | cons q m ih =>
    obtain ⟨a, b⟩ := q
    by_cases hk : a = k
    · simp [updateT, lookupT, hk]
    · simp [updateT, lookupT, hk, ih]

/-! ## Preservation of a per-record invariant by one loop iteration

One lemma per branch helper, then one for `step` and one for the whole
pass.  The five hypotheses are the five mutations `analyze` performs on a
record: fresh creation, column append, schema-close, insert append with
count increment, and moving the end of the last insert position. -/

theorem invTab_stepLast {P : TableInfo → Prop}
    (hcl : ∀ i e, P i → P { i with insert_positions := closeLastPos i.insert_positions e })
    (s : AState) (posAfter : Nat) (h : invTab P s.tables) :
    invTab P (stepLast s posAfter).tables := by
  unfold stepLast
  split
  · split
    · split
      · exact h
      · exact invTab_updateT h (fun i hi => hcl i _ hi)
    · exact h
  · exact h

theorem invTab_stepIns {P : TableInfo → Prop}
    (hfresh : ∀ st, P (freshInfo st))
    (hins : ∀ i p, P i →
      P { i with insert_positions := i.insert_positions ++ [(p, (none : Option Nat))],
                 insert_count := i.insert_count + 1 })
    (hcl : ∀ i e, P i → P { i with insert_positions := closeLastPos i.insert_positions e })
    (s : AState) (line : List Char) (posBefore posAfter : Nat) (h : invTab P s.tables) :
    invTab P (stepIns s line posBefore posAfter).tables := by
  unfold stepIns
  split
  · exact invTab_updateT (invTab_setdefaultT h (hfresh none)) (fun i hi => hins i _ hi)
  · exact invTab_stepLast hcl s posAfter h

theorem invTab_stepTail {P : TableInfo → Prop}
    (hfresh : ∀ st, P (freshInfo st))
    (hend : ∀ i e, P i → P { i with create_table_end := some e })
    (hins : ∀ i p, P i →
      P { i with insert_positions := i.insert_positions ++ [(p, (none : Option Nat))],
                 insert_count := i.insert_count + 1 })
    (hcl : ∀ i e, P i → P { i with insert_positions := closeLastPos i.insert_positions e })
    (s : AState) (line : List Char) (posBefore posAfter : Nat) (h : invTab P s.tables) :
    invTab P (stepTail s line posBefore posAfter).tables := by
  unfold stepTail
  split
  · split
    · exact invTab_updateT h (fun i hi => hend i _ hi)
    · exact invTab_stepIns hfresh hins hcl s line posBefore posAfter h
  · exact invTab_stepIns hfresh hins hcl s line posBefore posAfter h

theorem invTab_step {P : TableInfo → Prop}
    (hfresh : ∀ st, P (freshInfo st))
    (hcol : ∀ i c, P i → P { i with columns := i.columns ++ [c] })
    (hend : ∀ i e, P i → P { i with create_table_end := some e })
    (hins : ∀ i p, P i →
      P { i with insert_positions := i.insert_positions ++ [(p, (none : Option Nat))],
                 insert_count := i.insert_count + 1 })
    (hcl : ∀ i e, P i → P { i with insert_positions := closeLastPos i.insert_positions e })
    (s : AState) (raw : List Char) (h : invTab P s.tables) :
    invTab P (step s raw).tables := by
  simp only [step]
  split
  · exact invTab_setT h (hfresh _)
  · split
    · split
      · exact invTab_updateT h (fun i hi => hcol i _ hi)
      · exact invTab_stepTail hfresh hend hins hcl s _ _ _ h
    · exact invTab_stepTail hfresh hend hins hcl s _ _ _ h

theorem invTab_runLines {P : TableInfo → Prop}
    (hfresh : ∀ st, P (freshInfo st))
    (hcol : ∀ i c, P i → P { i with columns := i.columns ++ [c] })
    (hend : ∀ i e, P i → P { i with create_table_end := some e })
    (hins : ∀ i p, P i →
      P { i with insert_positions := i.insert_positions ++ [(p, (none : Option Nat))],
                 insert_count := i.insert_count + 1 })
    (hcl : ∀ i e, P i → P { i with insert_positions := closeLastPos i.insert_positions e })
    (lines : List (List Char)) (s : AState) (h : invTab P s.tables) :
    invTab P (runLines s lines).tables := by
  induction lines generalizing s with
  | nil => exact h
  | cons l ls ih =>
    exact ih (step s l) (invTab_step hfresh hcol hend hins hcl s l h)

/-! ## Lemmas about schema-close lines

A line matched by `\);` begins with `)`, which is neither a word character
nor whitespace nor a backtick, so neither the keyword patterns nor the
column pattern can match it: the computations reduce to `none` without
looking at the rest of the line. -/

theorem matchClose_shape {l : List Char} (h : matchClose l = true) :
    ∃ r, l = ')' :: ';' :: r := by
  unfold matchClose at h
  split at h
  · next r => exact ⟨r, rfl⟩
  · exact absurd h (by simp)

theorem create_none_of_rparen (r : List Char) :
    matchOpen createKw (')' :: ';' :: r) = none := rfl

theorem column_none_of_rparen (r : List Char) :
    matchColumn (')' :: ';' :: r) = none := rfl

/-! ## How one iteration changes `current_table` -/

theorem stepLast_current (s : AState) (posAfter : Nat) :
    (stepLast s posAfter).current = s.current := by
  unfold stepLast
  split
  · split
    · split <;> rfl
    · rfl
  · rfl

theorem stepIns_current_spec (s : AState) (line : List Char) (posBefore posAfter : Nat) :
    (stepIns s line posBefore posAfter).current = s.current
    ∨ ((stepIns s line posBefore posAfter).current.isSome = true
       ∧ (matchOpen insertKw line).isSome = true) := by
  unfold stepIns
  split
  · next name heq => exact Or.inr ⟨rfl, by simp [heq]⟩
  · exact Or.inl (stepLast_current s posAfter)

theorem stepTail_current_spec (s : AState) (line : List Char) (posBefore posAfter : Nat) :
    (stepTail s line posBefore posAfter).current = s.current
    ∨ ((stepTail s line posBefore posAfter).current.isSome = true
       ∧ (matchOpen insertKw line).isSome = true) := by
  unfold stepTail
  split
  · split
    · exact Or.inl rfl
    · exact stepIns_current_spec s line posBefore posAfter
  · exact stepIns_current_spec s line posBefore posAfter

/-- One iteration either leaves `current_table` unchanged or sets it to a
freshly matched name, and in the latter case the line matched the
schema-open or the insert-open pattern. -/
theorem step_current_spec (s : AState) (raw : List Char) :
    (step s raw).current = s.current
    ∨ ((step s raw).current.isSome = true
       ∧ ((matchOpen createKw (rstrip raw)).isSome = true
          ∨ (matchOpen insertKw (rstrip raw)).isSome = true)) := by
  unfold step
  simp only []
  split
  · next name heq => exact Or.inr ⟨rfl, Or.inl (by simp [heq])⟩
  · split
    · split
      · exact Or.inl rfl
      · rcases stepTail_current_spec s (rstrip raw) s.pos (s.pos + raw.length + 1) with h | ⟨h1, h2⟩
        · exact Or.inl h
        · exact Or.inr ⟨h1, Or.inr h2⟩
    · rcases stepTail_current_spec s (rstrip raw) s.pos (s.pos + raw.length + 1) with h | ⟨h1, h2⟩
      · exact Or.inl h
      · exact Or.inr ⟨h1, Or.inr h2⟩

/-! ## The claims -/

/-- Claim C1.  The claim states that a line matching both the insert-open
pattern and the generic column pattern, processed while a current table is
set, is treated as insert-open (a new insert range for the named table, no
column appended).  The code does the opposite: the column branch is checked
first and is not gated by any within-schema flag, so on `dumpC1` the line
`INSERT INTO \x60t\x60 VALUES (64,1);` is consumed as a column of the
current table `a` — the captured word `INSERT` is appended to `a.columns`,
no insert range is opened, and no record for `t` is created. -/
theorem c1_insert_line_consumed_as_column :
    (lookupT (analyze dumpC1) "a".data).map (fun i => (i.columns, i.insert_positions))
      = some (["INSERT".data], [])
    ∧ lookupT (analyze dumpC1) "t".data = none := by decide

/-- Claim C2.  The claim (and the repository's own test
`test_sql_dump_analyzer`) states that on the Scenario A dump the pass yields
`columns == ["id_carrier", "id_zone"]` and `insert_count == 21` for
`test_table`.  Evaluating the code on that exact dump instead yields the
column list `[id_carrier, id_zone, PRIMARY, LOCK] ++ 21 × INSERT` — the
`PRIMARY KEY` line, the `LOCK TABLES` line and every insert line are
consumed by the ungated column pattern — and `insert_count = 0`. -/
theorem c2_scenario_a_eval :
    (lookupT (analyze scenarioA) "test_table".data).map (fun i => (i.columns, i.insert_count))
      = some (["id_carrier".data, "id_zone".data, "PRIMARY".data, "LOCK".data]
                ++ List.replicate 21 ("INSERT".data), 0) := by decide

/-- Claim C3.  The claim states that identifiers are appended to a table's
column list only on lines strictly inside an open schema definition for that
table.  On `dumpC3` no schema is ever opened (`create_table_start` is
`none`), yet the free-form line following the insert-open line is appended
to `t.columns` as the identifier `garbage_line`. -/
theorem c3_column_appended_outside_schema :
    (lookupT (analyze dumpC3) "t".data).map
        (fun i => (i.columns, i.create_table_start, i.create_table_end))
      = some (["garbage_line".data], none, none) := by decide

/-- Claim C4 (Scenario C).  The claim states that an insert-open line naming
a table with no prior schema-open line still produces a record for that
table with no create range and `insert_count = 1`.  In `dump-analiza.py`,
when any current table is set the insert line is consumed by the column
branch instead, so on `dumpC4` no record for `orphan` is produced at all
(the word `INSERT` lands in `x.columns`); in `DeepSeekDump.py` the pass
aborts at the first `file.tell()` of the loop (the `OSError` is swallowed),
so on `dumpC4b` it returns an empty index and likewise produces no record
for `orphan`. -/
theorem c4_orphan_insert_no_entry :
    lookupT (analyze dumpC4) "orphan".data = none
    ∧ (lookupT (analyze dumpC4) "x".data).map TableInfo.columns = some ["INSERT".data]
    ∧ deepAnalyze dumpC4b = [] := by decide

/-- Claim C5, counterexample.  The claim states that a failing
`connection.execute` on one insert range is logged and iteration continues,
so every remaining range is still submitted.  In `dump-analiza.py` the only
`try` wraps the whole loop, so with an `execute` that fails on the first of
two ranges the second range is never submitted. -/
theorem c5_counterexample :
    ((10, some 20) : Nat × Option Nat) ∉
      import_data_submitted execFail0 [(0, some 10), (10, some 20)] := by decide

/-- Claim C5, amended.  During data replay, `dump-analiza.py` aborts the
remaining iteration at the first failing statement, while the
`DeepSeekDump.py` variant logs a warning and continues, submitting every
(closed) range; neither variant reports an aggregate count of failures. -/
theorem c5_import_best_effort_amended :
    (∀ (exec : Nat → Nat → Bool) (rs : List (Nat × Option Nat)),
        (∀ r ∈ rs, r.2.isSome = true) → deep_import_submitted exec rs = rs)
    ∧ (∀ (exec : Nat → Nat → Bool) (a e : Nat) (rs : List (Nat × Option Nat)),
        exec a e = false →
          import_data_submitted exec ((a, some e) :: rs) = [(a, some e)]) := by
  constructor
  · intro exec rs h
    induction rs with
    | nil => rfl
    | cons r rs ih =>
      obtain ⟨a, b⟩ := r
      cases b with
      | none => exact absurd (h _ (List.mem_cons_self _ _)) (by simp)
      | some e =>
        simp only [deep_import_submitted]
        rw [ih (fun q hq => h q (List.mem_cons_of_mem _ hq))]
  · intro exec a e rs h
    simp [import_data_submitted, h]

/-- Witness for `c5_import_best_effort_amended` at concrete ranges and a
concrete `execute`. -/
theorem c5_import_witness :
    deep_import_submitted execFail0 [(0, some 10)] = [(0, some 10)]
    ∧ import_data_submitted execFail0 [(0, some 10), (10, some 20)] = [(0, some 10)] :=
  ⟨c5_import_best_effort_amended.1 execFail0 [(0, some 10)] (by decide),
   c5_import_best_effort_amended.2 execFail0 0 10 [(10, some 20)] (by decide)⟩

/-- Claim C6.  Whenever a line matching the schema-close pattern is
processed while a table is current — in particular whenever a schema
definition is open, since the schema-open branch sets the current table —
one iteration of `dump-analiza.py` sets that table's `create_table_end` to
`file.tell()`, the byte offset immediately after the line, so the closed
create range includes the schema-close line.  Stated at step level, the
theorem covers every recognition event of every pass.  `DeepSeekDump.py`
never reaches its schema-close branch (its pass aborts at the first
`file.tell()` of the loop and indexes nothing), so the claim is vacuously
true of it: the second conjunct records that its index is always empty. -/
theorem c6_close_offset_after_line :
    (∀ (s : AState) (raw t : List Char),
        s.current = some t → matchClose (rstrip raw) = true →
          lookupT (step s raw).tables t
            = (lookupT s.tables t).map
                (fun i => { i with create_table_end := some (s.pos + raw.length + 1) }))
    ∧ ∀ dump : List String, deepAnalyze dump = [] := by
  constructor
  · intro s raw t hcur hclose
    obtain ⟨r, hr⟩ := matchClose_shape hclose
    unfold step
    simp only [hr, create_none_of_rparen, column_none_of_rparen, hcur]
    unfold stepTail
    simp only [hcur]
    rw [if_pos (by rfl)]
    exact lookupT_updateT_self s.tables t _
  · intro dump
    rfl

/-- Witness for `c6_close_offset_after_line` at the concrete state `sC6`
and the concrete close line `);`. -/
theorem c6_close_offset_witness :
    lookupT (step sC6 rawC6).tables ("t".data)
      = (lookupT sC6.tables ("t".data)).map
          (fun i => { i with create_table_end := some (sC6.pos + rawC6.length + 1) })
    ∧ deepAnalyze dumpC6 = [] :=
  ⟨c6_close_offset_after_line.1 sC6 rawC6 ("t".data) rfl (by decide),
   c6_close_offset_after_line.2 dumpC6⟩

/-- Claim C7.  For every dump and every table of the index, at every point
during and after the pass (the theorem quantifies over an arbitrary starting
state satisfying the invariant, so it applies to every prefix of the line
list), the stored `insert_count` equals the length of `insert_positions`. -/
theorem c7_insert_count_eq_length (lines : List (List Char)) (s : AState)
    (hInv : ∀ p ∈ s.tables, p.2.insert_count = p.2.insert_positions.length)
    (k : List Char) (i : TableInfo)
    (hl : lookupT (runLines s lines).tables k = some i) :
    i.insert_count = i.insert_positions.length := by
  refine invTab_lookupT (P := fun i => i.insert_count = i.insert_positions.length)
    (invTab_runLines ?_ ?_ ?_ ?_ ?_ lines s hInv) hl
  · intro st; rfl
  · intro i c hi; exact hi
  · intro i e hi; exact hi
  · intro i p hi; simp [hi]
  · intro i e hi; simpa [closeLastPos_length] using hi

/-- Witness for `c7_insert_count_eq_length` on the concrete dump `dumpC7`. -/
theorem c7_insert_count_witness : infoT7.insert_count = infoT7.insert_positions.length :=
  c7_insert_count_eq_length (dumpC7.map String.data) initState
    (by intro p hp; simp [initState] at hp) ("t".data) infoT7 (by decide)

/-- Claim C8 (Scenario D).  `get_table_stats` returns one row per table
(a permutation of the rows built from the dict) sorted ascending by
`insert_count`, and on a dict with counts `a: 5`, `b: 2`, `c: 9` the rows
come back in the order `b`, `a`, `c`. -/
theorem c8_stats_sorted_ascending (m : Tables) :
    List.Perm (get_table_stats m) (m.map statsRow)
    ∧ List.Sorted statsLe (get_table_stats m)
    ∧ get_table_stats statsExample =
        [("b".data, 2, 0), ("a".data, 5, 0), ("c".data, 9, 0)] :=
  ⟨List.perm_insertionSort statsLe (m.map statsRow),
   List.sorted_insertionSort statsLe (m.map statsRow),
   by decide⟩

/-- Claim C9, counterexample.  The claim states that after the pass
`estimated_size = insert_count * c` for a fixed non-zero constant `c`, so
different counts give different sizes.  On `dumpC9` the tables `t` and `u`
have counts 1 and 0 but both have `estimated_size = 0`, and no non-zero
constant satisfies the equation. -/
theorem c9_counterexample :
    (lookupT (analyze dumpC9) "t".data).map (fun i => (i.insert_count, i.estimated_size))
      = some (1, 0)
    ∧ (lookupT (analyze dumpC9) "u".data).map (fun i => (i.insert_count, i.estimated_size))
      = some (0, 0)
    ∧ ¬ ∃ c : Nat, c ≠ 0 ∧ ∀ k i, lookupT (analyze dumpC9) k = some i →
          i.estimated_size = i.insert_count * c := by
  refine ⟨by decide, by decide, ?_⟩
  rintro ⟨c, hc, h⟩
  have h1 : lookupT (analyze dumpC9) ("t".data) = some infoT9 := by decide
  have h2 := h _ _ h1
  simp [infoT9] at h2
  omega

/-- Claim C9, amended.  `estimated_size` is initialized to `0` and never
updated by any branch of the pass, so after the pass every record reports
`estimated_size = 0`, regardless of its insert count. -/
theorem c9_estimated_size_zero_amended (lines : List (List Char)) (s : AState)
    (hInv : ∀ p ∈ s.tables, p.2.estimated_size = 0)
    (k : List Char) (i : TableInfo)
    (hl : lookupT (runLines s lines).tables k = some i) :
    i.estimated_size = 0 := by
  refine invTab_lookupT (P := fun i => i.estimated_size = 0)
    (invTab_runLines ?_ ?_ ?_ ?_ ?_ lines s hInv) hl
  · intro st; rfl
  · intro i c hi; exact hi
  · intro i e hi; exact hi
  · intro i p hi; exact hi
  · intro i e hi; exact hi

/-- Witness for `c9_estimated_size_zero_amended` on the concrete
dump `dumpC9`. -/
theorem c9_estimated_size_witness : infoT9.estimated_size = 0 :=
  c9_estimated_size_zero_amended (dumpC9.map String.data) initState
    (by intro p hp; simp [initState] at hp) ("t".data) infoT9 (by decide)

/-- Claim C10.  Once `current_table` is set it never becomes unset for the
remainder of the pass (first conjunct, over an arbitrary suffix of lines),
and one iteration changes `current_table` only when the line matches the
schema-open or the insert-open pattern (second conjunct). -/
theorem c10_current_table_monotone :
    (∀ (lines : List (List Char)) (s : AState),
        s.current.isSome = true → (runLines s lines).current.isSome = true)
    ∧ (∀ (s : AState) (raw : List Char),
        (step s raw).current ≠ s.current →
          (matchOpen createKw (rstrip raw)).isSome = true
          ∨ (matchOpen insertKw (rstrip raw)).isSome = true) := by
  constructor
  · intro lines
    induction lines with
    | nil => intro s h; exact h
    | cons l ls ih =>
      intro s h
      have hs : (step s l).current.isSome = true := by
        rcases step_current_spec s l with he | ⟨h1, _⟩
        · rw [he]; exact h
        · exact h1
      exact ih (step s l) hs
  · intro s raw hne
    rcases step_current_spec s raw with he | ⟨_, h2⟩
    · exact absurd he hne
    · exact h2

/-- Witness for `c10_current_table_monotone`: a state with a current table
keeps one across a line, and a line that does change the current table
matches one of the two opening patterns. -/
theorem c10_current_table_witness :
    (runLines ⟨[], some ("t".data), 0⟩ ["x".data]).current.isSome = true
    ∧ ((matchOpen createKw (rstrip ("INSERT INTO `t` VALUES (1);".data))).isSome = true
       ∨ (matchOpen insertKw (rstrip ("INSERT INTO `t` VALUES (1);".data))).isSome = true) :=
  ⟨c10_current_table_monotone.1 ["x".data] ⟨[], some ("t".data), 0⟩ (by decide),
   c10_current_table_monotone.2 initState ("INSERT INTO `t` VALUES (1);".data) (by decide)⟩

end SQLDumpNavi
